import Mathlib

/-!
Verification of the rate limiter and batch-runner core of the
Stouffville By-laws AI repository.

Shallow embedding conventions:
  * instants are integers counting seconds; the calendar date of an
    instant is its floored division by 86400 (one day), so the Python
    comparison now.date() > day_start.date() becomes a comparison of
    floored day numbers;
  * the deques of the Python RateLimiter become lists whose head is the
    front of the deque; the pop-from-front-while loops become
    List.dropWhile;
  * the only partial operation in the Python code (indexing the front of
    a possibly empty deque in wait_if_needed) is modelled with an
    explicit error constructor; everything else is total;
  * the retry loops of the HTTP call steps are embedded as trace-producing
    functions parametrised by the outcome of each attempt, so that the
    ordering claims (waits, sleeps, record_request calls) become facts
    about the produced event lists.
-/

/-- Calendar day number of an instant, in days since the epoch
(floored division, matching Python date semantics for all instants). -/
def dateOf (t : Int) : Int := Int.fdiv t 86400

/-- State of the RateLimiter class (all three batch-script copies declare
the same fields). -/
structure RateLimiter where
  rpm_limit : Nat
  tpm_limit : Nat
  rpd_limit : Nat
  request_timestamps_minute : List Int
  request_timestamps_day : List Int
  token_usage_minute : List (Int × Nat)
  day_start : Int
deriving Repr, DecidableEq

/-- Constructor of RateLimiter: empty tracking deques, day_start = now. -/
def RateLimiter.init (rpm tpm rpd : Nat) (now : Int) : RateLimiter :=
  { rpm_limit := rpm
    tpm_limit := tpm
    rpd_limit := rpd
    request_timestamps_minute := []
    request_timestamps_day := []
    token_usage_minute := []
    day_start := now }

/-- Per-quota slice of the limits_info dictionary built by check_limits. -/
structure QuotaInfo where
  current : Nat
  limit : Nat
  exceeded : Bool
deriving Repr, DecidableEq

/-- The limits_info dictionary built by check_limits. -/
structure LimitsInfo where
  rpm : QuotaInfo
  rpd : QuotaInfo
  tpm : QuotaInfo
deriving Repr, DecidableEq

/-- RateLimiter._clean_old_entries: trim minute-window entries older than
now minus one minute, clear the whole day window and reset day_start when
the calendar date advanced past day_start, then trim day-window entries
older than now minus one day. -/
def RateLimiter.clean_old_entries (rl : RateLimiter) (now : Int) : RateLimiter :=
  let minute_ago := now - 60
  let day_ago := now - 86400
  let rtm := rl.request_timestamps_minute.dropWhile (fun t => decide (t < minute_ago))
  let tum := rl.token_usage_minute.dropWhile (fun p => decide (p.1 < minute_ago))
  let reset : Bool := decide (dateOf now > dateOf rl.day_start)
  let rtd0 := if reset then [] else rl.request_timestamps_day
  let ds := if reset then now else rl.day_start
  let rtd := rtd0.dropWhile (fun t => decide (t < day_ago))
  { rl with
    request_timestamps_minute := rtm
    token_usage_minute := tum
    request_timestamps_day := rtd
    day_start := ds }

/-- Sum of the token counts recorded in the minute token window. -/
def tokenSum (l : List (Int × Nat)) : Nat := (l.map (fun p => p.2)).sum

/-- RateLimiter.check_limits: purge, then compare current usage with the
three ceilings (greater-or-equal counts as exceeded). Returns the purged
state together with (is_allowed, limits_info). -/
def RateLimiter.check_limits (rl : RateLimiter) (now : Int) :
    RateLimiter × Bool × LimitsInfo :=
  let rl' := rl.clean_old_entries now
  let rpm_current := rl'.request_timestamps_minute.length
  let rpd_current := rl'.request_timestamps_day.length
  let tpm_current := tokenSum rl'.token_usage_minute
  let is_rpm_exceeded : Bool := decide (rpm_current ≥ rl'.rpm_limit)
  let is_rpd_exceeded : Bool := decide (rpd_current ≥ rl'.rpd_limit)
  let is_tpm_exceeded : Bool := decide (tpm_current ≥ rl'.tpm_limit)
  let limits_info : LimitsInfo :=
    { rpm := { current := rpm_current, limit := rl'.rpm_limit, exceeded := is_rpm_exceeded }
      rpd := { current := rpd_current, limit := rl'.rpd_limit, exceeded := is_rpd_exceeded }
      tpm := { current := tpm_current, limit := rl'.tpm_limit, exceeded := is_tpm_exceeded } }
  let is_allowed := !(is_rpm_exceeded || is_rpd_exceeded || is_tpm_exceeded)
  (rl', is_allowed, limits_info)

/-- RateLimiter.record_request: append now to both request windows and,
when token_count is positive, to the token window. -/
def RateLimiter.record_request (rl : RateLimiter) (now : Int) (token_count : Nat) :
    RateLimiter :=
  { rl with
    request_timestamps_minute := rl.request_timestamps_minute ++ [now]
    request_timestamps_day := rl.request_timestamps_day ++ [now]
    token_usage_minute :=
      if token_count > 0 then rl.token_usage_minute ++ [(now, token_count)]
      else rl.token_usage_minute }

/-- Fold record_request (with zero tokens) over a list of instants. -/
def recordAll (rl : RateLimiter) (ts : List Int) : RateLimiter :=
  ts.foldl (fun r t => r.record_request t 0) rl

/-- Result of one iteration of the wait_if_needed loop body: either the
limits allowed the call (the loop returns), or a sleep of the computed
duration happens, or indexing the front of an empty deque raised. -/
inductive WaitStep
  | allowed (rl : RateLimiter)
  | sleep (rl : RateLimiter) (duration : Int)
  | indexError
deriving Repr, DecidableEq

/-- One iteration of RateLimiter.wait_if_needed as written in
BatchParseAndExtractBylawPDFs.py: base wait 5s, the RPM/TPM branches wait
until the oldest entry leaves the one-minute window, the RPD branch waits
until next midnight, then a one-second buffer is added and the result is
capped at 60 seconds. -/
def waitStepBatch (rl : RateLimiter) (now : Int) : WaitStep :=
  let c := rl.check_limits now
  let rl' := c.1
  let info := c.2.2
  if c.2.1 then WaitStep.allowed rl'
  else
    let w0 : Int := 5
    let w1 : Option Int :=
      if info.rpm.exceeded then
        match rl'.request_timestamps_minute with
        | [] => none
        | oldest :: _ => some (max w0 (oldest + 60 - now))
      else some w0
    match w1 with
    | none => WaitStep.indexError
    | some w1 =>
      let w2 : Option Int :=
        if info.tpm.exceeded then
          match rl'.token_usage_minute with
          | [] => none
          | o :: _ => some (max w1 (o.1 + 60 - now))
        else some w1
      match w2 with
      | none => WaitStep.indexError
      | some w2 =>
        let w3 : Int :=
          if info.rpd.exceeded then max w2 (86400 * dateOf now + 86400 - now)
          else w2
        WaitStep.sleep rl' (min (w3 + 1) 60)

/-- One iteration of RateLimiter.wait_if_needed as written in
pdf-extract-batch.py (same computation, including the 60-second cap). -/
def waitStepPdfExtractBatch (rl : RateLimiter) (now : Int) : WaitStep :=
  let c := rl.check_limits now
  let rl' := c.1
  let info := c.2.2
  if c.2.1 then WaitStep.allowed rl'
  else
    let w0 : Int := 5
    let w1 : Option Int :=
      if info.rpm.exceeded then
        match rl'.request_timestamps_minute with
        | [] => none
        | oldest :: _ => some (max w0 (oldest + 60 - now))
      else some w0
    match w1 with
    | none => WaitStep.indexError
    | some w1 =>
      let w2 : Option Int :=
        if info.tpm.exceeded then
          match rl'.token_usage_minute with
          | [] => none
          | o :: _ => some (max w1 (o.1 + 60 - now))
        else some w1
      match w2 with
      | none => WaitStep.indexError
      | some w2 =>
        let w3 : Int :=
          if info.rpd.exceeded then max w2 (86400 * dateOf now + 86400 - now)
          else w2
        WaitStep.sleep rl' (min (w3 + 1) 60)

/-- One iteration of RateLimiter.wait_if_needed as written in
tools/BatchParseAndExtractBylawPDFs.py (same computation, including the
60-second cap). -/
def waitStepToolsBatch (rl : RateLimiter) (now : Int) : WaitStep :=
  let c := rl.check_limits now
  let rl' := c.1
  let info := c.2.2
  if c.2.1 then WaitStep.allowed rl'
  else
    let w0 : Int := 5
    let w1 : Option Int :=
      if info.rpm.exceeded then
        match rl'.request_timestamps_minute with
        | [] => none
        | oldest :: _ => some (max w0 (oldest + 60 - now))
      else some w0
    match w1 with
    | none => WaitStep.indexError
    | some w1 =>
      let w2 : Option Int :=
        if info.tpm.exceeded then
          match rl'.token_usage_minute with
          | [] => none
          | o :: _ => some (max w1 (o.1 + 60 - now))
        else some w1
      match w2 with
      | none => WaitStep.indexError
      | some w2 =>
        let w3 : Int :=
          if info.rpd.exceeded then max w2 (86400 * dateOf now + 86400 - now)
          else w2
        WaitStep.sleep rl' (min (w3 + 1) 60)

/-- One iteration of RateLimiter.wait_if_needed as written in
tools/IncrementalPDFExtraction.py: identical branch computations, but when
the RPD limit is exceeded the one-second buffer is added without the
60-second cap (the cap applies only in the non-RPD case). -/
def waitStepIncremental (rl : RateLimiter) (now : Int) : WaitStep :=
  let c := rl.check_limits now
  let rl' := c.1
  let info := c.2.2
  if c.2.1 then WaitStep.allowed rl'
  else
    let w0 : Int := 5
    let w1 : Option Int :=
      if info.rpm.exceeded then
        match rl'.request_timestamps_minute with
        | [] => none
        | oldest :: _ => some (max w0 (oldest + 60 - now))
      else some w0
    match w1 with
    | none => WaitStep.indexError
    | some w1 =>
      let w2 : Option Int :=
        if info.tpm.exceeded then
          match rl'.token_usage_minute with
          | [] => none
          | o :: _ => some (max w1 (o.1 + 60 - now))
        else some w1
      match w2 with
      | none => WaitStep.indexError
      | some w2 =>
        let w3 : Int :=
          if info.rpd.exceeded then max w2 (86400 * dateOf now + 86400 - now)
          else w2
        if info.rpd.exceeded then WaitStep.sleep rl' (w3 + 1)
        else WaitStep.sleep rl' (min (w3 + 1) 60)

/-- Outcome of running the wait_if_needed loop with bounded fuel: the loop
returned, the fuel ran out while still rate limited, or an index error. -/
inductive WaitOutcome
  | done (rl : RateLimiter) (now : Int)
  | fuelOut (rl : RateLimiter) (now : Int)
  | error
deriving Repr, DecidableEq

/-- RateLimiter.wait_if_needed of BatchParseAndExtractBylawPDFs.py as a
fuelled loop; each sleep advances the clock by the slept duration. -/
def wait_if_needed_loop : Nat → RateLimiter → Int → WaitOutcome
  | 0, rl, now => WaitOutcome.fuelOut rl now
  | Nat.succ fuel, rl, now =>
    match waitStepBatch rl now with
    | WaitStep.allowed rl' => WaitOutcome.done rl' now
    | WaitStep.indexError => WaitOutcome.error
    | WaitStep.sleep rl' d => wait_if_needed_loop fuel rl' (now + d)

/-- Names of the five rate-limited HTTP calls a job can issue. -/
inductive StepKind
  | uploadStart
  | uploadBytes
  | countTokens
  | generateContent
  | deleteFile
deriving Repr, DecidableEq

/-- Observable events of a call step: a wait_if_needed invocation, an HTTP
call being issued, a record_request call (with its token count), and a
backoff sleep (with its duration in seconds). -/
inductive Ev
  | wait
  | call (step : StepKind)
  | record (tokens : Nat)
  | sleep (secs : Nat)
deriving Repr, DecidableEq

/-- Outcome of one HTTP attempt: success, a network/HTTP error raised by
raise_for_status, or a well-formed HTTP success whose body/headers lack
the expected field. -/
inductive Outcome
  | ok
  | httpErr
  | badField
deriving Repr, DecidableEq

/-- Retry loop of the resumable-start request in upload_file
(wait_if_needed is NOT inside this loop). On HTTP success record_request
runs before the upload URL header is extracted, so a missing header still
records a request before raising ValueError. The first argument after the
outcomes is the number of remaining attempts, the second the 0-based
attempt index. -/
def upload_start_loop (outcome : Nat → Outcome) : Nat → Nat → List Ev × Bool
  | 0, _ => ([], false)
  | Nat.succ remaining, attempt =>
    match outcome attempt with
    | Outcome.ok => ([Ev.call StepKind.uploadStart, Ev.record 0], true)
    | Outcome.httpErr =>
      if remaining = 0 then ([Ev.call StepKind.uploadStart], false)
      else
        let rest := upload_start_loop outcome remaining (attempt + 1)
        (Ev.call StepKind.uploadStart :: Ev.sleep (2 * 2 ^ attempt) :: rest.1, rest.2)
    | Outcome.badField =>
      if remaining = 0 then ([Ev.call StepKind.uploadStart, Ev.record 0], false)
      else
        let rest := upload_start_loop outcome remaining (attempt + 1)
        (Ev.call StepKind.uploadStart :: Ev.record 0 :: Ev.sleep (2 * 2 ^ attempt) ::
          rest.1, rest.2)

/-- Retry loop of the byte-upload request in upload_file (this loop DOES
invoke wait_if_needed at the start of every attempt). record_request runs
before the file URI is extracted, so a missing URI still records. -/
def upload_bytes_loop (outcome : Nat → Outcome) : Nat → Nat → List Ev × Bool
  | 0, _ => ([], false)
  | Nat.succ remaining, attempt =>
    match outcome attempt with
    | Outcome.ok => ([Ev.wait, Ev.call StepKind.uploadBytes, Ev.record 0], true)
    | Outcome.httpErr =>
      if remaining = 0 then ([Ev.wait, Ev.call StepKind.uploadBytes], false)
      else
        let rest := upload_bytes_loop outcome remaining (attempt + 1)
        (Ev.wait :: Ev.call StepKind.uploadBytes :: Ev.sleep (2 * 2 ^ attempt) ::
          rest.1, rest.2)
    | Outcome.badField =>
      if remaining = 0 then ([Ev.wait, Ev.call StepKind.uploadBytes, Ev.record 0], false)
      else
        let rest := upload_bytes_loop outcome remaining (attempt + 1)
        (Ev.wait :: Ev.call StepKind.uploadBytes :: Ev.record 0 ::
          Ev.sleep (2 * 2 ^ attempt) :: rest.1, rest.2)

/-- Retry loop of count_tokens (wait_if_needed is NOT inside this loop).
A response missing totalTokens is NOT an error: result.get with default 0
returns token count 0 and the loop succeeds. -/
def count_tokens_loop (outcome : Nat → Outcome) (tokenVal : Nat) :
    Nat → Nat → List Ev × Option Nat
  | 0, _ => ([], none)
  | Nat.succ remaining, attempt =>
    match outcome attempt with
    | Outcome.ok => ([Ev.call StepKind.countTokens, Ev.record 0], some tokenVal)
    | Outcome.badField => ([Ev.call StepKind.countTokens, Ev.record 0], some 0)
    | Outcome.httpErr =>
      if remaining = 0 then ([Ev.call StepKind.countTokens], none)
      else
        let rest := count_tokens_loop outcome tokenVal remaining (attempt + 1)
        (Ev.call StepKind.countTokens :: Ev.sleep (2 * 2 ^ attempt) :: rest.1, rest.2)

/-- Retry loop of extract_structured_data (wait_if_needed is NOT inside
this loop). record_request (with the measured token count) runs before the
response body is parsed, so an unparseable body still records before the
ValueError is caught as transient. -/
def extract_loop (outcome : Nat → Outcome) (token_count : Nat) :
    Nat → Nat → List Ev × Bool
  | 0, _ => ([], false)
  | Nat.succ remaining, attempt =>
    match outcome attempt with
    | Outcome.ok => ([Ev.call StepKind.generateContent, Ev.record token_count], true)
    | Outcome.httpErr =>
      if remaining = 0 then ([Ev.call StepKind.generateContent], false)
      else
        let rest := extract_loop outcome token_count remaining (attempt + 1)
        (Ev.call StepKind.generateContent :: Ev.sleep (2 * 2 ^ attempt) :: rest.1, rest.2)
    | Outcome.badField =>
      if remaining = 0 then
        ([Ev.call StepKind.generateContent, Ev.record token_count], false)
      else
        let rest := extract_loop outcome token_count remaining (attempt + 1)
        (Ev.call StepKind.generateContent :: Ev.record token_count ::
          Ev.sleep (2 * 2 ^ attempt) :: rest.1, rest.2)

/-- Retry loop of delete_file (wait_if_needed is NOT inside this loop; the
loop returns False instead of raising after the last attempt). -/
def delete_loop (outcome : Nat → Bool) : Nat → Nat → List Ev × Bool
  | 0, _ => ([], false)
  | Nat.succ remaining, attempt =>
    if outcome attempt then ([Ev.call StepKind.deleteFile, Ev.record 0], true)
    else
      if remaining = 0 then ([Ev.call StepKind.deleteFile], false)
      else
        let rest := delete_loop outcome remaining (attempt + 1)
        (Ev.call StepKind.deleteFile :: Ev.sleep (2 * 2 ^ attempt) :: rest.1, rest.2)

/-- upload_file: one wait_if_needed at entry, then the resumable-start
retry loop; only if that loop broke out successfully, the byte-upload
retry loop (whose attempts each begin with wait_if_needed). -/
def upload_file_trace (startOutcome bytesOutcome : Nat → Outcome) : List Ev × Bool :=
  let s := upload_start_loop startOutcome 3 0
  if s.2 then
    let b := upload_bytes_loop bytesOutcome 3 0
    (Ev.wait :: (s.1 ++ b.1), b.2)
  else (Ev.wait :: s.1, false)

/-- count_tokens: one wait_if_needed at entry, then the retry loop. -/
def count_tokens_trace (outcome : Nat → Outcome) (tokenVal : Nat) :
    List Ev × Option Nat :=
  let l := count_tokens_loop outcome tokenVal 3 0
  (Ev.wait :: l.1, l.2)

/-- extract_structured_data: one wait_if_needed at entry, then the loop. -/
def extract_structured_data_trace (outcome : Nat → Outcome) (token_count : Nat) :
    List Ev × Bool :=
  let l := extract_loop outcome token_count 3 0
  (Ev.wait :: l.1, l.2)

/-- delete_file: one wait_if_needed at entry, then the retry loop. -/
def delete_file_trace (outcome : Nat → Bool) : List Ev × Bool :=
  let l := delete_loop outcome 3 0
  (Ev.wait :: l.1, l.2)

/-- Attempt outcomes of one batch job: the two upload requests, the
count-tokens and generate-content requests (with the token count the API
would report), and the delete request. -/
structure Job where
  upStart : Nat → Outcome
  upBytes : Nat → Outcome
  cnt : Nat → Outcome
  gen : Nat → Outcome
  del : Nat → Bool
  tokenVal : Nat

/-- process_pdf_file: upload, count tokens, extract, then best-effort
delete; any step exception is caught by the surrounding try and the job
returns False; a delete failure does not change the True result. -/
def process_pdf_file_trace (j : Job) : List Ev × Bool :=
  let u := upload_file_trace j.upStart j.upBytes
  if u.2 then
    let c := count_tokens_trace j.cnt j.tokenVal
    match c.2 with
    | none => (u.1 ++ c.1, false)
    | some tc =>
      let e := extract_structured_data_trace j.gen tc
      if e.2 then
        let d := delete_file_trace j.del
        (u.1 ++ c.1 ++ e.1 ++ d.1, true)
      else (u.1 ++ c.1 ++ e.1, false)
  else (u.1, false)

/-- Per-job results of the main loop: every input file is processed in
order, regardless of earlier failures. -/
def main_results (jobs : List Job) : List Bool :=
  jobs.map (fun j => (process_pdf_file_trace j).2)

/-- success_count of main. -/
def main_success_count (jobs : List Job) : Nat :=
  (main_results jobs).count true

/-- Exit code of main: 0 when success_count equals the number of input
files, else 1. -/
def main_exit_code (jobs : List Job) : Nat :=
  if main_success_count jobs = jobs.length then 0 else 1

/-- Detects a wait_if_needed event. -/
def isWait : Ev → Bool
  | Ev.wait => true
  | _ => false

/-- Detects an HTTP-call event. -/
def isCall : Ev → Bool
  | Ev.call _ => true
  | _ => false

/-- Detects a record_request event. -/
def isRecord : Ev → Bool
  | Ev.record _ => true
  | _ => false

/-- Number of wait_if_needed invocations in a trace. -/
def waitCount (t : List Ev) : Nat := t.countP isWait

/-- Number of record_request invocations in a trace. -/
def recordCount (t : List Ev) : Nat := t.countP isRecord

/-- Number of HTTP calls in a trace. -/
def callCount (t : List Ev) : Nat := t.countP isCall

/-- Backoff sleep durations of a trace, in order. -/
def sleepDurations (t : List Ev) : List Nat :=
  t.filterMap (fun e => match e with | Ev.sleep s => some s | _ => none)

/-- Scan helper for callsGated: the Boolean argument records whether a
wait_if_needed happened since the last HTTP call (or the start). -/
def callsGatedAux : List Ev → Bool → Bool
  | [], _ => true
  | Ev.wait :: rest, _ => callsGatedAux rest true
  | Ev.call _ :: rest, armed => armed && callsGatedAux rest false
  | _ :: rest, armed => callsGatedAux rest armed

/-- Holds when every HTTP call of the trace, the retries included, is
preceded by a wait_if_needed invocation issued after the previous call. -/
def callsGated (t : List Ev) : Bool := callsGatedAux t false

/-- Helper: dropWhile keeps a list whose elements all fail the test. -/
theorem dropWhile_eq_self_of_all {α : Type} (p : α → Bool) (l : List α)
    (h : ∀ x ∈ l, p x = false) : l.dropWhile p = l := by
  cases l with
  | nil => rfl
  | cons a l => simp [List.dropWhile_cons, h a (by simp)]

/-- Helper: dropWhile never lengthens a list. -/
theorem dropWhile_length_le {α : Type} (p : α → Bool) (l : List α) :
    (l.dropWhile p).length ≤ l.length :=
  (List.dropWhile_suffix p).sublist.length_le

/-- Helper: on a list sorted ascending, dropping the front entries below a
cutoff removes exactly the entries below the cutoff. -/
theorem sorted_dropWhile_lt_eq_filter (c : Int) (l : List Int)
    (h : l.Sorted (· ≤ ·)) :
    l.dropWhile (fun t => decide (t < c)) = l.filter (fun t => decide (c ≤ t)) := by
  induction l with
  | nil => rfl
  | cons a l ih =>
    rcases List.sorted_cons.mp h with ⟨ha, hl⟩
    by_cases hac : a < c
    · simp [List.dropWhile_cons, List.filter_cons, hac, not_le.mpr hac, ih hl]
    · have hca : c ≤ a := not_lt.mp hac
      have hall : ∀ x ∈ l, decide (c ≤ x) = true := by
        intro x hx
        exact decide_eq_true (le_trans hca (ha x hx))
      simp [List.dropWhile_cons, List.filter_cons, hac, hca,
        List.filter_eq_self.mpr hall]

/-- Helper: purging twice at the same instant equals purging once. -/
theorem clean_old_entries_idem (rl : RateLimiter) (now : Int) :
    (rl.clean_old_entries now).clean_old_entries now = rl.clean_old_entries now := by
  by_cases h : dateOf now > dateOf rl.day_start
  · simp [RateLimiter.clean_old_entries, h, List.dropWhile_idempotent]
  · simp [RateLimiter.clean_old_entries, h, List.dropWhile_idempotent]

/-- Helper: check_limits run again on its own output state at the same
instant returns the same state and the same verdict. -/
theorem check_limits_idem (rl : RateLimiter) (now : Int) :
    ((rl.check_limits now).1).check_limits now = rl.check_limits now := by
  simp [RateLimiter.check_limits, clean_old_entries_idem]

/-- C2: the purge clears the whole day window and resets day_start to now
whenever the calendar date of now is strictly after the date of day_start,
regardless of how recent the entries are; without a date rollover it
removes exactly the day-window entries older than now minus 24 hours and
keeps the rest, leaving day_start unchanged. -/
theorem c2_hybrid_day_window_purge (rl : RateLimiter) (now : Int)
    (hsorted : rl.request_timestamps_day.Sorted (· ≤ ·)) :
    (dateOf now > dateOf rl.day_start →
      (rl.clean_old_entries now).request_timestamps_day = [] ∧
      (rl.clean_old_entries now).day_start = now) ∧
    (¬ dateOf now > dateOf rl.day_start →
      (rl.clean_old_entries now).request_timestamps_day =
        rl.request_timestamps_day.filter (fun t => decide (now - 86400 ≤ t)) ∧
      (rl.clean_old_entries now).day_start = rl.day_start) := by
  constructor
  · intro h
    simp [RateLimiter.clean_old_entries, h]
  · intro h
    simp [RateLimiter.clean_old_entries, h,
      sorted_dropWhile_lt_eq_filter (now - 86400) _ hsorted]

/-- Witness for C2 at a concrete state: a one-second step past midnight
clears a fresh day entry, and without the rollover a stale entry is
dropped while a fresh one is kept. -/
theorem c2_hybrid_day_window_purge_witness :
    ((RateLimiter.mk 1 1 10 [] [86399] [] 0).clean_old_entries 86401).request_timestamps_day
        = [] ∧
    ((RateLimiter.mk 1 1 10 [] [86399] [] 0).clean_old_entries 86401).day_start = 86401 :=
  (c2_hybrid_day_window_purge (RateLimiter.mk 1 1 10 [] [86399] [] 0) 86401
    (by simp)).1 (by decide)

/-- C9: check_limits keeps the three configured limits, only ever removes
entries from the three tracking sequences (its outputs are suffixes of the
inputs, except that a date rollover empties the day sequence and resets
day_start to now), and an immediately repeated call at the same instant
returns the same result and leaves the state unchanged. -/
theorem c9_check_limits_frame (rl : RateLimiter) (now : Int) :
    ((rl.check_limits now).1.rpm_limit = rl.rpm_limit ∧
     (rl.check_limits now).1.tpm_limit = rl.tpm_limit ∧
     (rl.check_limits now).1.rpd_limit = rl.rpd_limit) ∧
    (rl.check_limits now).1.request_timestamps_minute <:+ rl.request_timestamps_minute ∧
    (rl.check_limits now).1.token_usage_minute <:+ rl.token_usage_minute ∧
    ((rl.check_limits now).1.request_timestamps_day <:+ rl.request_timestamps_day ∧
       (rl.check_limits now).1.day_start = rl.day_start ∨
     dateOf now > dateOf rl.day_start ∧
       (rl.check_limits now).1.request_timestamps_day = [] ∧
       (rl.check_limits now).1.day_start = now) ∧
    ((rl.check_limits now).1).check_limits now = rl.check_limits now := by
  refine ⟨⟨?_, ?_, ?_⟩, ?_, ?_, ?_, check_limits_idem rl now⟩
  · simp [RateLimiter.check_limits, RateLimiter.clean_old_entries]
  · simp [RateLimiter.check_limits, RateLimiter.clean_old_entries]
  · simp [RateLimiter.check_limits, RateLimiter.clean_old_entries]
  · simpa [RateLimiter.check_limits, RateLimiter.clean_old_entries]
      using List.dropWhile_suffix _
  · simpa [RateLimiter.check_limits, RateLimiter.clean_old_entries]
      using List.dropWhile_suffix _
  · by_cases h : dateOf now > dateOf rl.day_start
    · right
      refine ⟨h, ?_, ?_⟩ <;> simp [RateLimiter.check_limits, RateLimiter.clean_old_entries, h]
    · left
      constructor
      · simpa [RateLimiter.check_limits, RateLimiter.clean_old_entries, h]
          using List.dropWhile_suffix _
      · simp [RateLimiter.check_limits, RateLimiter.clean_old_entries, h]

/-- Helper: folding record_request with zero tokens appends the instants
to both request windows and touches nothing else. -/
theorem recordAll_fields (rl : RateLimiter) (ts : List Int) :
    recordAll rl ts = { rl with
      request_timestamps_minute := rl.request_timestamps_minute ++ ts
      request_timestamps_day := rl.request_timestamps_day ++ ts } := by
  induction ts generalizing rl with
  | nil => simp [recordAll]
  | cons t ts ih =>
    have h1 : recordAll rl (t :: ts) = recordAll (rl.record_request t 0) ts := rfl
    rw [h1, ih]
    simp [RateLimiter.record_request]

/-- C1: with rpm_limit equal to the number of recorded requests, all of
them within the last minute, check_limits disallows with rpm current
exactly at the limit; once the oldest recorded instant is more than 60
seconds old, the RPM quota is no longer exceeded and (the other quotas
holding) check_limits allows again. -/
theorem c1_blocking_threshold
    (tpmL rpdL : Nat) (oldest : Int) (tl : List Int) (d now now2 : Int)
    (hfresh : ∀ t ∈ oldest :: tl, now - 60 ≤ t)
    (hrpd : (oldest :: tl).length < rpdL)
    (htpm : 1 ≤ tpmL)
    (hold : oldest < now2 - 60) :
    (((recordAll (RateLimiter.init (oldest :: tl).length tpmL rpdL d)
        (oldest :: tl)).check_limits now).2.1 = false ∧
     ((recordAll (RateLimiter.init (oldest :: tl).length tpmL rpdL d)
        (oldest :: tl)).check_limits now).2.2.rpm.current = (oldest :: tl).length ∧
     ((recordAll (RateLimiter.init (oldest :: tl).length tpmL rpdL d)
        (oldest :: tl)).check_limits now).2.2.rpm.exceeded = true) ∧
    (((recordAll (RateLimiter.init (oldest :: tl).length tpmL rpdL d)
        (oldest :: tl)).check_limits now2).2.2.rpm.exceeded = false ∧
     ((recordAll (RateLimiter.init (oldest :: tl).length tpmL rpdL d)
        (oldest :: tl)).check_limits now2).2.1 = true) := by
  have hrl : recordAll (RateLimiter.init (oldest :: tl).length tpmL rpdL d)
      (oldest :: tl) =
      RateLimiter.mk (oldest :: tl).length tpmL rpdL (oldest :: tl) (oldest :: tl) [] d := by
    rw [recordAll_fields]
    simp [RateLimiter.init]
  have hmin : (oldest :: tl).dropWhile (fun t => decide (t < now - 60)) = oldest :: tl := by
    refine dropWhile_eq_self_of_all _ _ ?_
    intro x hx
    simpa using not_lt.mpr (hfresh x hx)
  rw [hrl]
  have hlen2 : ((oldest :: tl).dropWhile (fun t => decide (t < now2 - 60))).length
      ≤ tl.length := by
    have hstep : (oldest :: tl).dropWhile (fun t => decide (t < now2 - 60))
        = tl.dropWhile (fun t => decide (t < now2 - 60)) := by
      simp [List.dropWhile_cons, hold]
    rw [hstep]
    exact dropWhile_length_le _ tl
  have hdaylen : ((oldest :: tl).dropWhile (fun t => decide (t < now2 - 86400))).length
      ≤ tl.length + 1 := by
    simpa using dropWhile_length_le (fun t => decide (t < now2 - 86400)) (oldest :: tl)
  have hrpd' : tl.length + 1 < rpdL := by simpa using hrpd
  constructor
  · refine ⟨?_, ?_, ?_⟩ <;>
      simp [RateLimiter.check_limits, RateLimiter.clean_old_entries, hmin]
  · by_cases hres : dateOf now2 > dateOf d
    · constructor <;>
        simp [RateLimiter.check_limits, RateLimiter.clean_old_entries, tokenSum, hres] <;>
        omega
    · constructor <;>
        simp [RateLimiter.check_limits, RateLimiter.clean_old_entries, tokenSum, hres] <;>
        omega

/-- Witness for C1: two requests at instants 10 and 20 with rpm_limit 2,
checked at instant 30 (blocked, current 2) and at instant 100 (the oldest
is more than 60 seconds old, so RPM clears and the check allows). -/
theorem c1_blocking_threshold_witness :
    (((recordAll (RateLimiter.init [(10 : Int), 20].length 5 100 0)
        [(10 : Int), 20]).check_limits 30).2.1 = false ∧
     ((recordAll (RateLimiter.init [(10 : Int), 20].length 5 100 0)
        [(10 : Int), 20]).check_limits 30).2.2.rpm.current = [(10 : Int), 20].length ∧
     ((recordAll (RateLimiter.init [(10 : Int), 20].length 5 100 0)
        [(10 : Int), 20]).check_limits 30).2.2.rpm.exceeded = true) ∧
    (((recordAll (RateLimiter.init [(10 : Int), 20].length 5 100 0)
        [(10 : Int), 20]).check_limits 100).2.2.rpm.exceeded = false ∧
     ((recordAll (RateLimiter.init [(10 : Int), 20].length 5 100 0)
        [(10 : Int), 20]).check_limits 100).2.1 = true) :=
  c1_blocking_threshold 5 100 10 [20] 0 30 100
    (by intro t ht; simp at ht; rcases ht with h | h <;> simp [h])
    (by decide) (by decide) (by decide)

/-- Helper: the three configured ceilings survive the purge. -/
theorem clean_preserves_limits (rl : RateLimiter) (now : Int) :
    (rl.clean_old_entries now).rpm_limit = rl.rpm_limit ∧
    (rl.clean_old_entries now).tpm_limit = rl.tpm_limit ∧
    (rl.clean_old_entries now).rpd_limit = rl.rpd_limit := by
  simp [RateLimiter.clean_old_entries]


/-- Helper: waitStepBatch written with its let-bindings expanded (holds
definitionally). -/
theorem waitStepBatch_eq (rl : RateLimiter) (now : Int) :
    waitStepBatch rl now =
      if (rl.check_limits now).2.1 then
        WaitStep.allowed (rl.clean_old_entries now)
      else
        match (if (rl.check_limits now).2.2.rpm.exceeded then
                 match (rl.clean_old_entries now).request_timestamps_minute with
                 | [] => none
                 | oldest :: _ => some (max 5 (oldest + 60 - now))
               else some 5) with
        | none => WaitStep.indexError
        | some w1 =>
          match (if (rl.check_limits now).2.2.tpm.exceeded then
                   match (rl.clean_old_entries now).token_usage_minute with
                   | [] => none
                   | o :: _ => some (max w1 (o.1 + 60 - now))
                 else some w1) with
          | none => WaitStep.indexError
          | some w2 =>
            WaitStep.sleep (rl.clean_old_entries now)
              (min ((if (rl.check_limits now).2.2.rpd.exceeded then
                       max w2 (86400 * dateOf now + 86400 - now)
                     else w2) + 1) 60) := rfl

/-- Helper: every waitStepBatch result is the purged state under allowed
or sleep, or else the index error. -/
theorem waitStepBatch_cases (rl : RateLimiter) (now : Int) :
    waitStepBatch rl now = WaitStep.allowed (rl.clean_old_entries now) ∨
    (∃ d, waitStepBatch rl now = WaitStep.sleep (rl.clean_old_entries now) d) ∨
    waitStepBatch rl now = WaitStep.indexError := by
  rw [waitStepBatch_eq]
  split
  · exact Or.inl rfl
  · split
    · exact Or.inr (Or.inr rfl)
    · split
      · exact Or.inr (Or.inr rfl)
      · exact Or.inr (Or.inl ⟨_, rfl⟩)

/-- Helper: the index error can only happen when the RPM or the TPM
ceiling is zero. -/
theorem waitStepBatch_indexError_limits (rl : RateLimiter) (now : Int)
    (h : waitStepBatch rl now = WaitStep.indexError) :
    rl.rpm_limit = 0 ∨ rl.tpm_limit = 0 := by
  rw [waitStepBatch_eq] at h
  split at h
  · exact absurd h (by simp)
  · split at h
    next heq1 =>
      left
      by_cases hex : (rl.check_limits now).2.2.rpm.exceeded = true
      · cases hm : (rl.clean_old_entries now).request_timestamps_minute with
        | nil =>
          have hex2 : decide ((rl.clean_old_entries now).request_timestamps_minute.length
              ≥ (rl.clean_old_entries now).rpm_limit) = true := hex
          rw [hm] at hex2
          have hle : (rl.clean_old_entries now).rpm_limit ≤ 0 := by simpa using hex2
          have hl1 : (rl.clean_old_entries now).rpm_limit = rl.rpm_limit :=
            (clean_preserves_limits rl now).1
          omega
        | cons a as => simp [hex, hm] at heq1
      · simp [hex] at heq1
    next w1 heq1 =>
      split at h
      next heq2 =>
        right
        by_cases hex : (rl.check_limits now).2.2.tpm.exceeded = true
        · cases hm : (rl.clean_old_entries now).token_usage_minute with
          | nil =>
            have hex2 : decide (tokenSum (rl.clean_old_entries now).token_usage_minute
                ≥ (rl.clean_old_entries now).tpm_limit) = true := hex
            rw [hm] at hex2
            have hle : (rl.clean_old_entries now).tpm_limit ≤ 0 := by
              simpa [tokenSum] using hex2
            have hl2 : (rl.clean_old_entries now).tpm_limit = rl.tpm_limit :=
              (clean_preserves_limits rl now).2.1
            omega
          | cons o rest => simp [hex, hm] at heq2
        · simp [hex] at heq2
      next w2 heq2 => exact absurd h (by simp)

/-- C4 (amended): check_limits and record_request never raise (they are
total in the embedding: their Python bodies only pop guarded by
non-emptiness, append, and take lengths and sums), and for every positive
rpm_limit and tpm_limit configuration and every state and clock,
wait_if_needed never indexes the front of an empty tracking sequence,
however many loop iterations it runs; with a zero RPM or TPM ceiling the
front access can hit an empty sequence (see the counterexample). -/
theorem c4_no_raise_amended (fuel : Nat) (rl : RateLimiter) (now : Int)
    (hrpm : 1 ≤ rl.rpm_limit) (htpm : 1 ≤ rl.tpm_limit) :
    wait_if_needed_loop fuel rl now ≠ WaitOutcome.error := by
  induction fuel generalizing rl now with
  | zero => simp [wait_if_needed_loop]
  | succ fuel ih =>
    rcases waitStepBatch_cases rl now with h | ⟨d, h⟩ | h
    · simp [wait_if_needed_loop, h]
    · have hl := clean_preserves_limits rl now
      simp only [wait_if_needed_loop, h]
      exact ih (rl.clean_old_entries now) (now + d) (by rw [hl.1]; exact hrpm)
        (by rw [hl.2.1]; exact htpm)
    · rcases waitStepBatch_indexError_limits rl now h with h0 | h0 <;> omega

/-- Witness for C4 (amended) at a concrete configuration with positive
ceilings. -/
theorem c4_no_raise_amended_witness :
    wait_if_needed_loop 3 (RateLimiter.init 1 1 1 0) 0 ≠ WaitOutcome.error :=
  c4_no_raise_amended 3 (RateLimiter.init 1 1 1 0) 0 (by decide) (by decide)

/-- C4 counterexample: with rpm_limit = 0 — a non-negative configuration
the claim quantifies over — the very first wait_if_needed iteration finds
the RPM quota exceeded while the minute deque is empty, and the front
access raises, refuting the claim for arbitrary non-negative limits. -/
theorem c4_counterexample :
    wait_if_needed_loop 1 (RateLimiter.init 0 1000000 1500 0) 0 = WaitOutcome.error := by
  decide

/-- Helper: every sleep computed by the BatchParseAndExtractBylawPDFs.py
wait_if_needed iteration is capped at 60 seconds. -/
theorem waitStepBatch_cap (rl : RateLimiter) (now : Int) (rl' : RateLimiter) (d : Int)
    (h : waitStepBatch rl now = WaitStep.sleep rl' d) : d ≤ 60 := by
  rw [waitStepBatch_eq] at h
  split at h
  · exact absurd h (by simp)
  · split at h
    · exact absurd h (by simp)
    · split at h
      · exact absurd h (by simp)
      · rw [WaitStep.sleep.injEq] at h
        exact h.2 ▸ min_le_right _ _

/-- C5 counterexample: at a state whose RPD quota is exhausted and whose
next midnight is 86400 seconds away, all three named source copies clamp
the computed wait to 60 seconds — so it is not true that exactly two of
the three clamp while one of them does not. -/
theorem c5_counterexample :
    waitStepBatch (RateLimiter.mk 5 10 1 [0] [0] [] 0) 0
        = WaitStep.sleep (RateLimiter.mk 5 10 1 [0] [0] [] 0) 60 ∧
    waitStepPdfExtractBatch (RateLimiter.mk 5 10 1 [0] [0] [] 0) 0
        = WaitStep.sleep (RateLimiter.mk 5 10 1 [0] [0] [] 0) 60 ∧
    waitStepToolsBatch (RateLimiter.mk 5 10 1 [0] [0] [] 0) 0
        = WaitStep.sleep (RateLimiter.mk 5 10 1 [0] [0] [] 0) 60 := by
  decide

/-- C5 (amended): all three named source copies of wait_if_needed compute
identical wait steps and clamp every computed wait duration — the RPD
branch's wait to midnight included — to at most 60 seconds after the
1-second buffer; the later variant in tools/IncrementalPDFExtraction.py
removes the cap when the RPD limit is exceeded (at the same exhausted-RPD
state it sleeps 86401 seconds, the uncapped wait to midnight plus the
buffer). -/
theorem c5_rpd_wait_cap_amended (rl : RateLimiter) (now : Int)
    (rl' : RateLimiter) (d : Int) :
    (waitStepPdfExtractBatch rl now = waitStepBatch rl now ∧
     waitStepToolsBatch rl now = waitStepBatch rl now) ∧
    (waitStepBatch rl now = WaitStep.sleep rl' d → d ≤ 60) ∧
    waitStepIncremental (RateLimiter.mk 5 10 1 [0] [0] [] 0) 0
        = WaitStep.sleep (RateLimiter.mk 5 10 1 [0] [0] [] 0) 86401 :=
  ⟨⟨rfl, rfl⟩, fun h => waitStepBatch_cap rl now rl' d h, by decide⟩

/-- Witness for C5 (amended): the cap implication applied at a concrete
rate-limited state sleeping exactly 60 seconds. -/
theorem c5_rpd_wait_cap_amended_witness : (60 : Int) ≤ 60 :=
  (c5_rpd_wait_cap_amended (RateLimiter.mk 5 10 1 [0] [0] [] 0) 0
    (RateLimiter.mk 5 10 1 [0] [0] [] 0) 60).2.1 (by decide)

/-- C3 counterexample: in count_tokens a transient failure is retried
after only the backoff sleep; no wait_if_needed invocation separates the
failed attempt from the retry attempt, so the retry bypasses rate
limiting (the single wait is the one at function entry). -/
theorem c3_counterexample :
    callsGated (count_tokens_trace
        (fun a => if a = 0 then Outcome.httpErr else Outcome.ok) 42).1 = false ∧
    (count_tokens_trace
        (fun a => if a = 0 then Outcome.httpErr else Outcome.ok) 42).1
      = [Ev.wait, Ev.call StepKind.countTokens, Ev.sleep 2,
         Ev.call StepKind.countTokens, Ev.record 0] := by
  decide

/-- Helper: the resumable-start retry loop contains no wait events. -/
theorem upload_start_loop_no_wait (o : Nat → Outcome) :
    ∀ r a, waitCount (upload_start_loop o r a).1 = 0 := by
  intro r
  induction r with
  | zero => intro a; simp [upload_start_loop, waitCount]
  | succ r ih =>
    intro a
    cases ho : o a <;>
      by_cases hr : r = 0 <;>
        simp [upload_start_loop, ho, hr, waitCount, isWait, List.countP_cons] <;>
        simpa [waitCount] using ih (a + 1)

/-- Helper: the count_tokens retry loop contains no wait events. -/
theorem count_tokens_loop_no_wait (o : Nat → Outcome) (v : Nat) :
    ∀ r a, waitCount (count_tokens_loop o v r a).1 = 0 := by
  intro r
  induction r with
  | zero => intro a; simp [count_tokens_loop, waitCount]
  | succ r ih =>
    intro a
    cases ho : o a <;>
      by_cases hr : r = 0 <;>
        simp [count_tokens_loop, ho, hr, waitCount, isWait, List.countP_cons] <;>
        simpa [waitCount] using ih (a + 1)

/-- Helper: the extract_structured_data retry loop contains no waits. -/
theorem extract_loop_no_wait (o : Nat → Outcome) (tc : Nat) :
    ∀ r a, waitCount (extract_loop o tc r a).1 = 0 := by
  intro r
  induction r with
  | zero => intro a; simp [extract_loop, waitCount]
  | succ r ih =>
    intro a
    cases ho : o a <;>
      by_cases hr : r = 0 <;>
        simp [extract_loop, ho, hr, waitCount, isWait, List.countP_cons] <;>
        simpa [waitCount] using ih (a + 1)

/-- Helper: the delete_file retry loop contains no wait events. -/
theorem delete_loop_no_wait (o : Nat → Bool) :
    ∀ r a, waitCount (delete_loop o r a).1 = 0 := by
  intro r
  induction r with
  | zero => intro a; simp [delete_loop, waitCount]
  | succ r ih =>
    intro a
    cases ho : o a <;>
      by_cases hr : r = 0 <;>
        simp [delete_loop, ho, hr, waitCount, isWait, List.countP_cons] <;>
        simpa [waitCount] using ih (a + 1)

/-- Helper: in the byte-upload loop every HTTP call, retries included, is
preceded by a wait_if_needed invocation. -/
theorem upload_bytes_loop_gated (o : Nat → Outcome) :
    ∀ r a b, callsGatedAux (upload_bytes_loop o r a).1 b = true := by
  intro r
  induction r with
  | zero => intro a b; simp [upload_bytes_loop, callsGatedAux]
  | succ r ih =>
    intro a b
    cases ho : o a <;>
      by_cases hr : r = 0 <;>
        simp [upload_bytes_loop, ho, hr, callsGatedAux] <;>
        exact ih (a + 1) _

/-- C3 (amended): each call step invokes wait_if_needed exactly once at
entry, before its first attempt; only the byte-upload loop of upload_file
re-invokes wait_if_needed before every attempt including retries, while
retries in the resumable-start, count-tokens, generate-content and delete
loops run after only the backoff sleep, without re-invoking
wait_if_needed. -/
theorem c3_retry_gating_amended (o1 o2 o3 o4 : Nat → Outcome) (od : Nat → Bool)
    (v tc : Nat) :
    callsGated (upload_bytes_loop o2 3 0).1 = true ∧
    waitCount (upload_start_loop o1 3 0).1 = 0 ∧
    (count_tokens_trace o3 v).1.head? = some Ev.wait ∧
    waitCount (count_tokens_trace o3 v).1 = 1 ∧
    (extract_structured_data_trace o4 tc).1.head? = some Ev.wait ∧
    waitCount (extract_structured_data_trace o4 tc).1 = 1 ∧
    (delete_file_trace od).1.head? = some Ev.wait ∧
    waitCount (delete_file_trace od).1 = 1 := by
  refine ⟨upload_bytes_loop_gated o2 3 0 false, upload_start_loop_no_wait o1 3 0,
    rfl, ?_, rfl, ?_, rfl, ?_⟩
  · simpa [count_tokens_trace, waitCount, isWait, List.countP_cons]
      using count_tokens_loop_no_wait o3 v 3 0
  · simpa [extract_structured_data_trace, waitCount, isWait, List.countP_cons]
      using extract_loop_no_wait o4 tc 3 0
  · simpa [delete_file_trace, waitCount, isWait, List.countP_cons]
      using delete_loop_no_wait od 3 0

/-- Attempt pattern that fails with a network/HTTP error on the first k
attempts and succeeds afterwards. -/
def failThenOk (k : Nat) : Nat → Outcome :=
  fun a => if a < k then Outcome.httpErr else Outcome.ok

/-- C6 counterexample: a first attempt that fails transiently by the
spec's own classification (a success response missing the expected field)
followed by a success yields TWO record_request calls, not exactly one,
because record_request runs before the field is extracted. -/
theorem c6_counterexample :
    recordCount (upload_start_loop
        (fun a => if a = 0 then Outcome.badField else Outcome.ok) 3 0).1 = 2 ∧
    sleepDurations (upload_start_loop
        (fun a => if a = 0 then Outcome.badField else Outcome.ok) 3 0).1 = [2] ∧
    (upload_start_loop
        (fun a => if a = 0 then Outcome.badField else Outcome.ok) 3 0).2 = true := by
  decide

/-- C6 (amended): restricted to network/HTTP transient failures, a call
step that fails k < 3 times then succeeds performs exactly k backoff
sleeps of 2, 4, 8 seconds doubling from 2 and exactly one record_request;
a step whose 3 attempts all fail with network/HTTP errors records nothing
and propagates a failure that marks the job failed. Missing-field
failures, which the spec also classifies transient, additionally call
record_request on each failing attempt (see the counterexample). -/
theorem c6_retry_backoff_amended (k v tc : Nat) (hk : k < 3) :
    (recordCount (upload_start_loop (failThenOk k) 3 0).1 = 1 ∧
     sleepDurations (upload_start_loop (failThenOk k) 3 0).1
       = (List.range k).map (fun i => 2 * 2 ^ i) ∧
     (upload_start_loop (failThenOk k) 3 0).2 = true) ∧
    (recordCount (upload_bytes_loop (failThenOk k) 3 0).1 = 1 ∧
     sleepDurations (upload_bytes_loop (failThenOk k) 3 0).1
       = (List.range k).map (fun i => 2 * 2 ^ i) ∧
     (upload_bytes_loop (failThenOk k) 3 0).2 = true) ∧
    (recordCount (count_tokens_loop (failThenOk k) v 3 0).1 = 1 ∧
     sleepDurations (count_tokens_loop (failThenOk k) v 3 0).1
       = (List.range k).map (fun i => 2 * 2 ^ i) ∧
     (count_tokens_loop (failThenOk k) v 3 0).2 = some v) ∧
    (recordCount (extract_loop (failThenOk k) tc 3 0).1 = 1 ∧
     sleepDurations (extract_loop (failThenOk k) tc 3 0).1
       = (List.range k).map (fun i => 2 * 2 ^ i) ∧
     (extract_loop (failThenOk k) tc 3 0).2 = true) ∧
    (recordCount (upload_start_loop (fun _ => Outcome.httpErr) 3 0).1 = 0 ∧
     recordCount (upload_bytes_loop (fun _ => Outcome.httpErr) 3 0).1 = 0 ∧
     recordCount (count_tokens_loop (fun _ => Outcome.httpErr) v 3 0).1 = 0 ∧
     recordCount (extract_loop (fun _ => Outcome.httpErr) tc 3 0).1 = 0 ∧
     (extract_loop (fun _ => Outcome.httpErr) tc 3 0).2 = false ∧
     (process_pdf_file_trace
        { upStart := fun _ => Outcome.ok, upBytes := fun _ => Outcome.ok,
          cnt := fun _ => Outcome.ok, gen := fun _ => Outcome.httpErr,
          del := fun _ => true, tokenVal := v }).2 = false) := by
  interval_cases k <;>
    exact ⟨⟨rfl, rfl, rfl⟩, ⟨rfl, rfl, rfl⟩, ⟨rfl, rfl, rfl⟩, ⟨rfl, rfl, rfl⟩,
      rfl, rfl, rfl, rfl, rfl, rfl⟩

/-- Witness for C6 (amended) at k = 2 failures before success. -/
theorem c6_retry_backoff_amended_witness :
    recordCount (upload_start_loop (failThenOk 2) 3 0).1 = 1 ∧
    sleepDurations (upload_start_loop (failThenOk 2) 3 0).1 = [2, 4] :=
  ⟨(c6_retry_backoff_amended 2 5 7 (by decide)).1.1,
   (c6_retry_backoff_amended 2 5 7 (by decide)).1.2.1⟩

/-- C7 counterexample: a well-formed HTTP success response missing the
totalTokens field is NOT classified as a transient failure: count_tokens
accepts it on the first attempt, performs no retry, and returns token
count 0 as its successful result. -/
theorem c7_counterexample :
    (count_tokens_trace (fun _ => Outcome.badField) 42).2 = some 0 ∧
    sleepDurations (count_tokens_trace (fun _ => Outcome.badField) 42).1 = [] ∧
    callCount (count_tokens_trace (fun _ => Outcome.badField) 42).1 = 1 := by
  decide

/-- C7 (amended): a success response missing the upload URL header or the
uploaded file URI is classified transient and retried with backoff, and
exhausts the three attempts as a failure when it persists; a response
missing totalTokens is not an error at all — count_tokens returns 0 as
the token count and succeeds without retrying. -/
theorem c7_missing_field_amended :
    ((upload_start_loop (fun a => if a = 0 then Outcome.badField else Outcome.ok) 3 0).1
        = [Ev.call StepKind.uploadStart, Ev.record 0, Ev.sleep 2,
           Ev.call StepKind.uploadStart, Ev.record 0] ∧
     (upload_start_loop (fun a => if a = 0 then Outcome.badField else Outcome.ok) 3 0).2
        = true) ∧
    ((upload_bytes_loop (fun a => if a = 0 then Outcome.badField else Outcome.ok) 3 0).1
        = [Ev.wait, Ev.call StepKind.uploadBytes, Ev.record 0, Ev.sleep 2,
           Ev.wait, Ev.call StepKind.uploadBytes, Ev.record 0] ∧
     (upload_bytes_loop (fun a => if a = 0 then Outcome.badField else Outcome.ok) 3 0).2
        = true) ∧
    ((upload_start_loop (fun _ => Outcome.badField) 3 0).2 = false ∧
     sleepDurations (upload_start_loop (fun _ => Outcome.badField) 3 0).1 = [2, 4] ∧
     (upload_bytes_loop (fun _ => Outcome.badField) 3 0).2 = false) ∧
    ((count_tokens_trace (fun a => if a = 0 then Outcome.badField else Outcome.ok) 42).2
        = some 0 ∧
     sleepDurations (count_tokens_trace
        (fun a => if a = 0 then Outcome.badField else Outcome.ok) 42).1 = []) := by
  decide

/-- Helper: the success classification of a job never depends on the
delete step's outcomes. -/
theorem process_result_ignores_delete (j : Job) (d : Nat → Bool) :
    (process_pdf_file_trace j).2 = (process_pdf_file_trace { j with del := d }).2 := by
  unfold process_pdf_file_trace
  by_cases hu : (upload_file_trace j.upStart j.upBytes).2 = true
  · cases hc : (count_tokens_trace j.cnt j.tokenVal).2 with
    | none => simp [hu, hc]
    | some tc =>
      by_cases he : (extract_structured_data_trace j.gen tc).2 = true <;>
        simp [hu, hc, he]
  · simp [hu]

/-- C8: every input file is processed (a failing job never stops the
run), a job's success classification is independent of the delete step's
outcome — concretely, a job whose upload, count and extract steps succeed
is classified successful even when every delete attempt fails — and the
exit status is 0 exactly when every job succeeded. -/
theorem c8_failure_containment (jobs : List Job) (j : Job) (d : Nat → Bool) :
    (main_results jobs).length = jobs.length ∧
    (main_exit_code jobs = 0 ↔ ∀ b ∈ main_results jobs, b = true) ∧
    (process_pdf_file_trace j).2 = (process_pdf_file_trace { j with del := d }).2 ∧
    (process_pdf_file_trace
        { upStart := fun _ => Outcome.ok, upBytes := fun _ => Outcome.ok,
          cnt := fun _ => Outcome.ok, gen := fun _ => Outcome.ok,
          del := fun _ => false, tokenVal := 42 }).2 = true := by
  have hlen : (main_results jobs).length = jobs.length := by simp [main_results]
  refine ⟨hlen, ?_, process_result_ignores_delete j d, by decide⟩
  unfold main_exit_code main_success_count
  constructor
  · intro h b hb
    have hcount : (main_results jobs).count true = jobs.length := by
      by_contra hne
      simp [hne] at h
    have hcl : (main_results jobs).count true = (main_results jobs).length := by omega
    exact (List.count_eq_length.mp hcl b hb).symm
  · intro h
    have hcount : (main_results jobs).count true = (main_results jobs).length :=
      List.count_eq_length.mpr (fun b hb => (h b hb).symm)
    simp [hcount, hlen]

/-- C10: a successful upload issues two rate-limited HTTP calls and two
record_request calls (resumable start and byte upload), so a fully
successful job records five requests, and folding those five
record_request calls appends five timestamps to both the minute and the
day request windows. -/
theorem c10_upload_counts_two_requests (v : Nat) (rl : RateLimiter)
    (t1 t2 t3 t4 t5 : Int) :
    recordCount (upload_file_trace (fun _ => Outcome.ok) (fun _ => Outcome.ok)).1 = 2 ∧
    callCount (upload_file_trace (fun _ => Outcome.ok) (fun _ => Outcome.ok)).1 = 2 ∧
    recordCount (process_pdf_file_trace
        { upStart := fun _ => Outcome.ok, upBytes := fun _ => Outcome.ok,
          cnt := fun _ => Outcome.ok, gen := fun _ => Outcome.ok,
          del := fun _ => true, tokenVal := v }).1 = 5 ∧
    (recordAll rl [t1, t2, t3, t4, t5]).request_timestamps_minute
        = rl.request_timestamps_minute ++ [t1, t2, t3, t4, t5] ∧
    (recordAll rl [t1, t2, t3, t4, t5]).request_timestamps_day
        = rl.request_timestamps_day ++ [t1, t2, t3, t4, t5] :=
  ⟨rfl, rfl, rfl, by simp [recordAll_fields], by simp [recordAll_fields]⟩
